import Mathlib

/-!
# Star API handlers

A shallow embedding of `pkg/services/star/api/api.go`: the five HTTP handlers
`GetStars`, `StarDashboard`, `StarDashboardByUID`, `UnstarDashboard` and
`UnstarDashboardByUID`, together with `getDashboardHelper`.

The handlers are stateless adapters around two collaborators, the star service
and the dashboard service.  A handler is embedded as a function from a `World`
(the collaborators' state together with the log of every collaborator call the
handlers have issued) to a response and the next `World`.  The collaborators
themselves are fields of `API`, so every theorem holds for all implementations
of them unless it fixes one.
-/

namespace StarApi

/-! ## Values exchanged with the collaborators -/

deriving instance DecidableEq for Except

/-- A Go `error` value; the handlers only test it against `nil` and attach it
to the response. -/
structure GoError where
  msg : String
deriving DecidableEq, Repr

/-- `star.GetUserStarsQuery`. -/
structure GetUserStarsQuery where
  UserID : Int
deriving DecidableEq, Repr

/-- A Go `map[string]bool`: the entries in the order one `range` loop visits
them, with pairwise distinct keys. -/
structure StarMap where
  entries : List (String × Bool)
  nodupKeys : (entries.map Prod.fst).Nodup

/-- The keys a `for uid := range m` loop yields, in iteration order. -/
def StarMap.range (m : StarMap) : List String :=
  m.entries.map Prod.fst

/-- `len(m)` of a Go map. -/
def StarMap.len (m : StarMap) : Nat :=
  m.entries.length

/-- `star.GetUserStarsResult`. -/
structure GetUserStarsResult where
  UserStars : StarMap

/-- `star.StarDashboardCommand`; a field left out of a Go composite literal has
its zero value. -/
structure StarDashboardCommand where
  UserID : Int := 0
  DashboardID : Int := 0
  DashboardUID : String := ""
  OrgID : Int := 0
  Updated : Nat := 0
deriving DecidableEq, Repr

/-- `star.UnstarDashboardCommand`. -/
structure UnstarDashboardCommand where
  UserID : Int := 0
  DashboardID : Int := 0
  DashboardUID : String := ""
  OrgID : Int := 0
deriving DecidableEq, Repr

/-- `dashboards.GetDashboardQuery`. -/
structure GetDashboardQuery where
  ID : Int := 0
  UID : String := ""
  OrgID : Int := 0
deriving DecidableEq, Repr

/-- `dashboards.Dashboard`; the handlers read only its numeric `ID`. -/
structure Dashboard where
  ID : Int
deriving DecidableEq, Repr

/-! ## Responses (package response) -/

/-- The JSON body of a response: a message object or an array of strings. -/
inductive Body where
  | message (m : String)
  | uids (l : List String)
deriving DecidableEq, Repr

/-- A `response.Response`: HTTP status, body and the attached diagnostic error. -/
structure Response where
  status : Nat
  body : Body
  err : Option GoError
deriving DecidableEq, Repr

namespace http

def StatusOK : Nat := 200
def StatusBadRequest : Nat := 400
def StatusNotFound : Nat := 404
def StatusInternalServerError : Nat := 500

end http

namespace response

/-- Modelled from the spec: `response.Error` (package response is not under
src/): "errors return {status, message}", "with the underlying collaborator
error attached as diagnostic detail where applicable". -/
def Error (status : Nat) (message : String) (err : Option GoError) : Response :=
  { status := status, body := Body.message message, err := err }

/-- Modelled from the spec: `response.JSON` (package response is not under
src/): "list endpoint returns a JSON array of strings". -/
def JSON (status : Nat) (body : List String) : Response :=
  { status := status, body := Body.uids body, err := none }

/-- Modelled from the spec: `response.Success` (package response is not under
src/): "mutating endpoints return a simple success message object on 200". -/
def Success (message : String) : Response :=
  { status := http.StatusOK, body := Body.message message, err := none }

end response

/-! ## `strconv.ParseInt(s, 10, 64)` -/

namespace strconv

inductive NumError where
  | ErrSyntax
  | ErrRange
deriving DecidableEq, Repr

def maxUint64 : Nat := 2 ^ 64 - 1

/-- The digit loop of `strconv.ParseUint(s, 10, 64)`, `n` being the value read
so far. -/
def parseUintLoop : List Char → Nat → Except NumError Nat
  | [], n => Except.ok n
  | c :: cs, n =>
    if 48 ≤ c.toNat ∧ c.toNat ≤ 57 then
      if n ≥ maxUint64 / 10 + 1 then Except.error NumError.ErrRange
      else
        let n1 := n * 10 + (c.toNat - 48)
        if n1 > maxUint64 then Except.error NumError.ErrRange
        else parseUintLoop cs n1
    else Except.error NumError.ErrSyntax

/-- `strconv.ParseUint(s, 10, 64)`. -/
def ParseUint (s : List Char) : Except NumError Nat :=
  match s with
  | [] => Except.error NumError.ErrSyntax
  | _ => parseUintLoop s 0

/-- The sign handling and the int64 range check of `strconv.ParseInt`. -/
def parseIntChars (s : List Char) : Except NumError Int :=
  match s with
  | [] => Except.error NumError.ErrSyntax
  | c :: cs =>
    let neg := decide (c = '-')
    let rest := if c = '+' ∨ c = '-' then cs else c :: cs
    match ParseUint rest with
    | Except.error e => Except.error e
    | Except.ok un =>
      if ¬ neg ∧ un ≥ 2 ^ 63 then Except.error NumError.ErrRange
      else if neg ∧ un > 2 ^ 63 then Except.error NumError.ErrRange
      else Except.ok (if neg then - (un : Int) else (un : Int))

/-- `strconv.ParseInt(s, 10, 64)`. -/
def ParseInt (s : String) : Except NumError Int :=
  parseIntChars s.toList

end strconv

/-! ## The request context -/

/-- The kinds of caller identity. -/
inductive IdentityKind where
  | User
  | ServiceAccount
  | Other
deriving DecidableEq, Repr

/-- The typed id `c.GetID()` returns. -/
structure TypedID where
  kind : IdentityKind
  id : Int
deriving DecidableEq, Repr

/-- What the handlers read of a `contextmodel.ReqContext`: the `UserID` field
of the signed-in user, the results of `GetID()` and `GetOrgID()`, and the path
parameters of the request.  `UserID` and `GetID()` describe one caller, the
signed-in user; a property that relates a handler reading the one to a handler
reading the other states that `GetID()` resolves to `UserID`. -/
structure ReqContext where
  UserID : Int
  ID : TypedID
  OrgID : Int
  Params : List (String × String)
deriving DecidableEq, Repr

def ReqContext.GetID (c : ReqContext) : TypedID := c.ID

def ReqContext.GetOrgID (c : ReqContext) : Int := c.OrgID

namespace web

/-- The expression `web.Params(c.Req)[key]`: indexing a Go map with a missing
key yields the empty string. -/
def Params (c : ReqContext) (key : String) : String :=
  (c.Params.lookup key).getD ""

end web

/-- The package-level functions the handlers call: `identity.UserIdentifier`
and the clock reading of `time.Now()`. -/
structure Env where
  UserIdentifier : TypedID → Except GoError Int
  Now : Nat

/-! ## Collaborators and the world -/

/-- The interface `star.Service`, over a collaborator state `σ`. -/
structure Service (σ : Type) where
  GetByUser : GetUserStarsQuery → σ → Except GoError GetUserStarsResult × σ
  Add : StarDashboardCommand → σ → Option GoError × σ
  Delete : UnstarDashboardCommand → σ → Option GoError × σ

/-- The method of `dashboards.DashboardService` the handlers use. -/
structure DashboardService (σ : Type) where
  GetDashboard : GetDashboardQuery → σ → Except GoError Dashboard × σ

/-- One call issued by a handler. -/
inductive Call where
  | GetDashboard (q : GetDashboardQuery)
  | GetByUser (q : GetUserStarsQuery)
  | Add (cmd : StarDashboardCommand)
  | Delete (cmd : UnstarDashboardCommand)
  | Warn (msg : String)
deriving DecidableEq, Repr

/-- Whether a call goes to the star service. -/
def Call.isStarService : Call → Bool
  | Call.GetByUser _ => true
  | Call.Add _ => true
  | Call.Delete _ => true
  | _ => false

/-- Whether a call goes to the dashboard service. -/
def Call.isDashboardLookup : Call → Bool
  | Call.GetDashboard _ => true
  | _ => false

/-- Whether a call is `StarService.Add`. -/
def Call.isAdd : Call → Bool
  | Call.Add _ => true
  | _ => false

/-- The collaborators' state and the calls issued so far, oldest first. -/
structure World (σ : Type) where
  state : σ
  calls : List Call

/-- The struct `API`; its `logger` is the `Warn` entries of the call log. -/
structure API (σ : Type) where
  starService : Service σ
  dashboardService : DashboardService σ

variable {σ : Type}

/-- The call `api.dashboardService.GetDashboard(ctx, &query)`. -/
def API.GetDashboard (api : API σ) (query : GetDashboardQuery) (w : World σ) :
    Except GoError Dashboard × World σ :=
  let r := api.dashboardService.GetDashboard query w.state
  (r.1, { state := r.2, calls := w.calls ++ [Call.GetDashboard query] })

/-- The call `api.starService.GetByUser(ctx, &query)`. -/
def API.GetByUser (api : API σ) (query : GetUserStarsQuery) (w : World σ) :
    Except GoError GetUserStarsResult × World σ :=
  let r := api.starService.GetByUser query w.state
  (r.1, { state := r.2, calls := w.calls ++ [Call.GetByUser query] })

/-- The call `api.starService.Add(ctx, &cmd)`. -/
def API.Add (api : API σ) (cmd : StarDashboardCommand) (w : World σ) :
    Option GoError × World σ :=
  let r := api.starService.Add cmd w.state
  (r.1, { state := r.2, calls := w.calls ++ [Call.Add cmd] })

/-- The call `api.starService.Delete(ctx, &cmd)`. -/
def API.Delete (api : API σ) (cmd : UnstarDashboardCommand) (w : World σ) :
    Option GoError × World σ :=
  let r := api.starService.Delete cmd w.state
  (r.1, { state := r.2, calls := w.calls ++ [Call.Delete cmd] })

/-- The call `api.logger.Warn(msg)`. -/
def API.Warn (_api : API σ) (msg : String) (w : World σ) : World σ :=
  { w with calls := w.calls ++ [Call.Warn msg] }

/-! ## The handlers -/

def starDeprecated : String :=
  "POST /user/stars/dashboard/\x7bdashboard_id\x7d is deprecated, please use POST /user/stars/dashboard/uid/\x7bdashboard_uid\x7d instead"

def unstarDeprecated : String :=
  "DELETE /user/stars/dashboard/\x7bdashboard_id\x7d is deprecated, please use DELETE /user/stars/dashboard/uid/\x7bdashboard_uid\x7d instead"

/-- The function `getDashboardHelper`: the dashboard, or the response to
return.  `len(uid) > 0` holds exactly when the string is not empty. -/
def API.getDashboardHelper (api : API σ) (orgID : Int) (id : Int) (uid : String)
    (w : World σ) : Except Response Dashboard × World σ :=
  let query : GetDashboardQuery :=
    if uid.length > 0 then { UID := uid, ID := id, OrgID := orgID }
    else { ID := id, OrgID := orgID }
  match api.GetDashboard query w with
  | (Except.error err, w1) =>
    (Except.error (response.Error http.StatusNotFound "Dashboard not found" (some err)), w1)
  | (Except.ok result, w1) => (Except.ok result, w1)

/-- The handler `GetStars`. -/
def API.GetStars (api : API σ) (c : ReqContext) (w : World σ) : Response × World σ :=
  let query : GetUserStarsQuery := { UserID := c.UserID }
  match api.GetByUser query w with
  | (Except.error err, w1) =>
    (response.Error http.StatusInternalServerError "Failed to get user stars" (some err), w1)
  | (Except.ok iuserstars, w1) =>
    let uids := iuserstars.UserStars.range.foldl (fun uids uid => uids ++ [uid]) []
    (response.JSON http.StatusOK uids, w1)

/-- The handler `StarDashboard` (legacy numeric id). -/
def API.StarDashboard (api : API σ) (env : Env) (c : ReqContext) (w : World σ) :
    Response × World σ :=
  match env.UserIdentifier c.GetID with
  | Except.error _ => (response.Error http.StatusBadRequest "Only users and service accounts can star dashboards" none, w)
  | Except.ok userID =>
    match strconv.ParseInt (web.Params c ":id") with
    | Except.error _ => (response.Error http.StatusBadRequest "Invalid dashboard ID" none, w)
    | Except.ok id =>
      let w1 := api.Warn starDeprecated w
      let cmd : StarDashboardCommand :=
        { UserID := userID, DashboardID := id, Updated := env.Now }
      if cmd.DashboardID ≤ 0 then
        (response.Error http.StatusBadRequest "Missing dashboard id" none, w1)
      else
        match api.Add cmd w1 with
        | (some err, w2) =>
          (response.Error http.StatusInternalServerError "Failed to star dashboard" (some err), w2)
        | (none, w2) => (response.Success "Dashboard starred!", w2)

/-- The handler `StarDashboardByUID`. -/
def API.StarDashboardByUID (api : API σ) (env : Env) (c : ReqContext) (w : World σ) :
    Response × World σ :=
  let uid := web.Params c ":uid"
  if uid = "" then (response.Error http.StatusBadRequest "Invalid dashboard UID" none, w)
  else
    match env.UserIdentifier c.GetID with
    | Except.error _ => (response.Error http.StatusBadRequest "Only users and service accounts can star dashboards" none, w)
    | Except.ok userID =>
      match api.getDashboardHelper c.GetOrgID 0 uid w with
      | (Except.error rsp, w1) => (rsp, w1)
      | (Except.ok dash, w1) =>
        let cmd : StarDashboardCommand :=
          { UserID := userID, DashboardID := dash.ID, DashboardUID := uid,
            OrgID := c.GetOrgID, Updated := env.Now }
        match api.Add cmd w1 with
        | (some err, w2) =>
          (response.Error http.StatusInternalServerError "Failed to star dashboard" (some err), w2)
        | (none, w2) => (response.Success "Dashboard starred!", w2)

/-- The handler `UnstarDashboard` (legacy numeric id). -/
def API.UnstarDashboard (api : API σ) (env : Env) (c : ReqContext) (w : World σ) :
    Response × World σ :=
  match strconv.ParseInt (web.Params c ":id") with
  | Except.error _ => (response.Error http.StatusBadRequest "Invalid dashboard ID" none, w)
  | Except.ok id =>
    match env.UserIdentifier c.GetID with
    | Except.error _ => (response.Error http.StatusBadRequest "Only users and service accounts can star dashboards" none, w)
    | Except.ok userID =>
      let w1 := api.Warn unstarDeprecated w
      let cmd : UnstarDashboardCommand := { UserID := userID, DashboardID := id }
      if cmd.DashboardID ≤ 0 then
        (response.Error http.StatusBadRequest "Missing dashboard id" none, w1)
      else
        match api.Delete cmd w1 with
        | (some err, w2) =>
          (response.Error http.StatusInternalServerError "Failed to unstar dashboard" (some err), w2)
        | (none, w2) => (response.Success "Dashboard unstarred", w2)

/-- The handler `UnstarDashboardByUID`. -/
def API.UnstarDashboardByUID (api : API σ) (env : Env) (c : ReqContext) (w : World σ) :
    Response × World σ :=
  let uid := web.Params c ":uid"
  if uid = "" then (response.Error http.StatusBadRequest "Invalid dashboard UID" none, w)
  else
    match env.UserIdentifier c.GetID with
    | Except.error _ => (response.Error http.StatusBadRequest "Only users and service accounts can star dashboards" none, w)
    | Except.ok userID =>
      let cmd : UnstarDashboardCommand :=
        { UserID := userID, DashboardUID := uid, OrgID := c.GetOrgID }
      match api.Delete cmd w with
      | (some err, w1) =>
        (response.Error http.StatusInternalServerError "Failed to unstar dashboard" (some err), w1)
      | (none, w1) => (response.Success "Dashboard unstarred", w1)

/-- The world after `StarDashboardByUID` and then `UnstarDashboardByUID`. -/
def API.starUnstar (api : API σ) (env : Env) (c : ReqContext) (w : World σ) : World σ :=
  (api.UnstarDashboardByUID env c (api.StarDashboardByUID env c w).2).2

/-! ## A reference star service

The round-trip properties are stated over a star service that keeps a set of
dashboard UIDs per user.  The maps it hands out are Go maps, so the order in
which a `range` loop visits one is not fixed by its keys. -/

/-- The order in which `range` loops visit the keys of the maps a star service
hands out.  Go leaves that order unspecified and it may change from one loop
to the next: `visit n keys` is the order in which the keys of the `n`-th map
handed out are visited. -/
structure MapOrder where
  visit : Nat → List String → List String
  perm : ∀ n keys, (visit n keys).Perm keys

/-- The store of the reference star service: its (UserID, UID) records and the
number of maps it has handed out so far. -/
structure StarStore where
  records : List (Int × String)
  handedOut : Nat
deriving DecidableEq, Repr

/-- The UIDs recorded for a user. -/
def StarStore.uidsOf (s : StarStore) (userID : Int) : List String :=
  (s.records.filter (fun r => decide (r.1 = userID))).map Prod.snd

/-- The Go map holding exactly the given keys, when it is the `n`-th map handed
out and `range` loops visit maps in the given order. -/
def StarMap.ofKeys (order : MapOrder) (n : Nat) (keys : List String) : StarMap where
  entries := (order.visit n keys.dedup).map (fun k => (k, true))
  nodupKeys := by
    have h : ((order.visit n keys.dedup).map (fun k => (k, true))).map Prod.fst =
        order.visit n keys.dedup := by
      simp [List.map_map, Function.comp_def]
    rw [h]
    exact (order.perm n keys.dedup).nodup_iff.mpr (List.nodup_dedup keys)

/-- The reference implementation of the interface `star.Service` that the
round-trip properties are stated over, for a given visiting order of its maps.
It keeps a set of UIDs per UserID: `Add` inserts the command's DashboardUID
under the command's UserID, `Delete` removes it (removing an absent UID changes
nothing) and `GetByUser` returns the set of that UserID.  No operation fails. -/
def refStarServiceIn (order : MapOrder) : Service StarStore where
  GetByUser q s :=
    (Except.ok { UserStars := StarMap.ofKeys order s.handedOut (s.uidsOf q.UserID) },
     { s with handedOut := s.handedOut + 1 })
  Add cmd s :=
    (none,
     { s with records :=
        if (cmd.UserID, cmd.DashboardUID) ∈ s.records then s.records
        else s.records ++ [(cmd.UserID, cmd.DashboardUID)] })
  Delete cmd s :=
    (none,
     { s with records :=
        s.records.filter (fun r => decide (r ≠ (cmd.UserID, cmd.DashboardUID))) })

/-- A dashboard service that answers from a fixed table and touches no state. -/
def tableDashboards (σ : Type) (table : GetDashboardQuery → Except GoError Dashboard) :
    DashboardService σ where
  GetDashboard q s := (table q, s)

/-- The API over the reference star service and a dashboard table, for a given
visiting order. -/
def refAPIIn (order : MapOrder) (table : GetDashboardQuery → Except GoError Dashboard) :
    API StarStore where
  starService := refStarServiceIn order
  dashboardService := tableDashboards StarStore table

/-- One visiting order: every map is visited in the order of the store. -/
def storeOrder : MapOrder where
  visit _ keys := keys
  perm _ keys := List.Perm.refl keys

/-- Another visiting order: every second map is visited backwards. -/
def alternatingOrder : MapOrder where
  visit n keys := if n % 2 = 0 then keys else keys.reverse
  perm n keys := by
    by_cases h : n % 2 = 0
    · simp [h]
    · simp [h, List.reverse_perm]

/-- The reference API whose maps are visited in store order, for concrete
evaluations. -/
def refAPI (table : GetDashboardQuery → Except GoError Dashboard) : API StarStore :=
  refAPIIn storeOrder table

/-- A resolver in the shape the module expects of `identity.UserIdentifier`:
users and service accounts resolve to their id, every other kind is rejected. -/
def resolveUserOrServiceAccount (t : TypedID) : Except GoError Int :=
  match t.kind with
  | IdentityKind.User => Except.ok t.id
  | IdentityKind.ServiceAccount => Except.ok t.id
  | IdentityKind.Other => Except.error { msg := "invalid identity type" }

/-- An environment for concrete evaluations. -/
def sampleEnv : Env where
  UserIdentifier := resolveUserOrServiceAccount
  Now := 1700000000

/-- A dashboard table that knows `abc123` in org 1 as dashboard 42. -/
def sampleTable (q : GetDashboardQuery) : Except GoError Dashboard :=
  if q.UID = "abc123" ∧ q.OrgID = 1 then Except.ok { ID := 42 }
  else Except.error { msg := "dashboard not found" }

/-- The empty world over the reference store. -/
def emptyWorld : World StarStore where
  state := { records := [], handedOut := 0 }
  calls := []

/-- A user's request naming dashboard `abc123`. -/
def sampleCtx : ReqContext where
  UserID := 7
  ID := { kind := IdentityKind.User, id := 7 }
  OrgID := 1
  Params := [(":uid", "abc123")]

/-- A user's request naming a dashboard the table does not know. -/
def unknownCtx : ReqContext where
  UserID := 7
  ID := { kind := IdentityKind.User, id := 7 }
  OrgID := 1
  Params := [(":uid", "nope")]

/-- A request without a uid path parameter, from a caller that is no user. -/
def noUidCtx : ReqContext where
  UserID := 0
  ID := { kind := IdentityKind.Other, id := 0 }
  OrgID := 3
  Params := []

/-- A star service whose every operation fails with `e` and changes nothing. -/
def brokenStarService (σ : Type) (e : GoError) : Service σ where
  GetByUser _ s := (Except.error e, s)
  Add _ s := (some e, s)
  Delete _ s := (some e, s)

/-- The API over the failing star service and a dashboard table. -/
def brokenAPI (e : GoError) (table : GetDashboardQuery → Except GoError Dashboard) :
    API StarStore where
  starService := brokenStarService StarStore e
  dashboardService := tableDashboards StarStore table

/-- A world whose store holds stars of users 7 and 8. -/
def starredWorld : World StarStore where
  state := { records := [(7, "abc123"), (7, "xyz"), (8, "other")], handedOut := 0 }
  calls := []

/-- A world in which user 7 has starred three dashboards. -/
def busyWorld : World StarStore where
  state := { records := [(7, "abc123"), (7, "xyz"), (7, "pqr")], handedOut := 0 }
  calls := []

/-- A user's request on the legacy route, naming dashboard 42. -/
def legacyCtx : ReqContext where
  UserID := 7
  ID := { kind := IdentityKind.User, id := 7 }
  OrgID := 1
  Params := [(":id", "42")]

/-- A user's request on the legacy route with a negative id. -/
def negativeIdCtx : ReqContext where
  UserID := 7
  ID := { kind := IdentityKind.User, id := 7 }
  OrgID := 1
  Params := [(":id", "-3")]

/-- A request on the legacy route with id 0, from a caller that is no user. -/
def otherZeroCtx : ReqContext where
  UserID := 0
  ID := { kind := IdentityKind.Other, id := 0 }
  OrgID := 1
  Params := [(":id", "0")]

/-- A request with well-formed path parameters from a caller that is no user. -/
def otherCtx : ReqContext where
  UserID := 0
  ID := { kind := IdentityKind.Other, id := 0 }
  OrgID := 1
  Params := [(":id", "42"), (":uid", "abc123")]

/-- A request with a non-integer id from a caller that is no user. -/
def otherBadIdCtx : ReqContext where
  UserID := 0
  ID := { kind := IdentityKind.Other, id := 0 }
  OrgID := 1
  Params := [(":id", "abc")]

/-! ## Auxiliary facts -/

theorem length_pos_of_ne_empty (s : String) (h : s ≠ "") : s.length > 0 := by
  cases s with
  | mk d =>
    cases d with
    | nil => exact absurd rfl h
    | cons a l => simp [String.length]

/-- The query `getDashboardHelper` builds always carries the uid it was given. -/
theorem getDashboardHelper_query (orgID id : Int) (uid : String) :
    (if uid.length > 0 then ({ UID := uid, ID := id, OrgID := orgID } : GetDashboardQuery)
      else { ID := id, OrgID := orgID }) = { UID := uid, ID := id, OrgID := orgID } := by
  by_cases h : uid = ""
  · subst h
    simp
  · simp [length_pos_of_ne_empty uid h]

/-- Appending every element of a list, one at a time, appends the list. -/
theorem foldl_append_each (l acc : List String) :
    l.foldl (fun uids uid => uids ++ [uid]) acc = acc ++ l := by
  induction l generalizing acc with
  | nil => simp
  | cons x xs ih => simp [ih]

/-- What `GetStars` returns, in terms of the answer of `GetByUser`. -/
theorem getStars_eq (api : API σ) (c : ReqContext) (w : World σ) :
    api.GetStars c w =
      (match (api.starService.GetByUser { UserID := c.UserID } w.state).1 with
        | Except.error err => response.Error 500 "Failed to get user stars" (some err)
        | Except.ok res => response.JSON 200 res.UserStars.range,
       { state := (api.starService.GetByUser { UserID := c.UserID } w.state).2,
         calls := w.calls ++ [Call.GetByUser { UserID := c.UserID }] }) := by
  rcases h : api.starService.GetByUser { UserID := c.UserID } w.state with ⟨r, s1⟩
  cases r <;>
  simp [API.GetStars, API.GetByUser, h, foldl_append_each, http.StatusOK,
    http.StatusInternalServerError]

/-! ## StarDashboardByUID -/

/-- C1: a `StarDashboardByUID` request with a non-empty uid, a caller that
resolves to user `U` and org `O`, whose dashboard lookup for `(O, uid)` returns
dashboard `dash` and whose `Add` returns no error, answers 200 "Dashboard
starred!" and issues exactly two calls: the lookup and one `Add` with
`UserID = U`, `DashboardID = dash.ID`, `DashboardUID = uid`, `OrgID = O`. -/
theorem starDashboardByUID_success (api : API σ) (env : Env) (c : ReqContext) (w : World σ)
    (U : Int) (dash : Dashboard) (s1 s2 : σ)
    (huid : web.Params c ":uid" ≠ "")
    (hcaller : env.UserIdentifier c.GetID = Except.ok U)
    (hlookup : api.dashboardService.GetDashboard
      { UID := web.Params c ":uid", ID := 0, OrgID := c.GetOrgID } w.state = (Except.ok dash, s1))
    (hadd : api.starService.Add
      { UserID := U, DashboardID := dash.ID, DashboardUID := web.Params c ":uid",
        OrgID := c.GetOrgID, Updated := env.Now } s1 = (none, s2)) :
    (api.StarDashboardByUID env c w).1 = response.Success "Dashboard starred!" ∧
    (api.StarDashboardByUID env c w).1.status = 200 ∧
    (api.StarDashboardByUID env c w).2.state = s2 ∧
    (api.StarDashboardByUID env c w).2.calls = w.calls ++
      [Call.GetDashboard { UID := web.Params c ":uid", ID := 0, OrgID := c.GetOrgID },
       Call.Add { UserID := U, DashboardID := dash.ID, DashboardUID := web.Params c ":uid",
                  OrgID := c.GetOrgID, Updated := env.Now }] := by
  simp [API.StarDashboardByUID, API.getDashboardHelper, getDashboardHelper_query,
    API.GetDashboard, API.Add, huid, hcaller, hlookup, hadd, response.Success, http.StatusOK]

theorem starDashboardByUID_success_witness :
    web.Params sampleCtx ":uid" = "abc123" ∧
    sampleEnv.UserIdentifier sampleCtx.GetID = Except.ok 7 ∧
    ((refAPI sampleTable).StarDashboardByUID sampleEnv sampleCtx emptyWorld).1 =
      response.Success "Dashboard starred!" ∧
    ((refAPI sampleTable).StarDashboardByUID sampleEnv sampleCtx emptyWorld).2.calls =
      [Call.GetDashboard { UID := "abc123", ID := 0, OrgID := 1 },
       Call.Add { UserID := 7, DashboardID := 42, DashboardUID := "abc123", OrgID := 1,
                  Updated := 1700000000 }] :=
  have h := starDashboardByUID_success (refAPI sampleTable) sampleEnv sampleCtx emptyWorld
    7 { ID := 42 } emptyWorld.state { records := [(7, "abc123")], handedOut := 0 }
    (by decide) (by decide) (by decide) (by decide)
  ⟨by decide, by decide, h.1, h.2.2.2⟩

/-- C2: a `StarDashboardByUID` request with a non-empty uid and a caller that
resolves to a user identifier, whose dashboard lookup returns an error, answers
404 "Dashboard not found" and issues the lookup and nothing else: no
StarService call. -/
theorem starDashboardByUID_lookup_failure (api : API σ) (env : Env) (c : ReqContext)
    (w : World σ) (U : Int) (e : GoError) (s1 : σ)
    (huid : web.Params c ":uid" ≠ "")
    (hcaller : env.UserIdentifier c.GetID = Except.ok U)
    (hlookup : api.dashboardService.GetDashboard
      { UID := web.Params c ":uid", ID := 0, OrgID := c.GetOrgID } w.state = (Except.error e, s1)) :
    (api.StarDashboardByUID env c w).1 = response.Error 404 "Dashboard not found" (some e) ∧
    (api.StarDashboardByUID env c w).1.status = http.StatusNotFound ∧
    (api.StarDashboardByUID env c w).2.state = s1 ∧
    (api.StarDashboardByUID env c w).2.calls = w.calls ++
      [Call.GetDashboard { UID := web.Params c ":uid", ID := 0, OrgID := c.GetOrgID }] ∧
    (api.StarDashboardByUID env c w).2.calls.filter Call.isStarService =
      w.calls.filter Call.isStarService := by
  simp [API.StarDashboardByUID, API.getDashboardHelper, getDashboardHelper_query,
    API.GetDashboard, huid, hcaller, hlookup, response.Error, http.StatusNotFound,
    Call.isStarService]

theorem starDashboardByUID_lookup_failure_witness :
    web.Params unknownCtx ":uid" = "nope" ∧
    sampleTable { UID := "nope", ID := 0, OrgID := 1 } =
      Except.error { msg := "dashboard not found" } ∧
    ((refAPI sampleTable).StarDashboardByUID sampleEnv unknownCtx emptyWorld).1 =
      response.Error 404 "Dashboard not found" (some { msg := "dashboard not found" }) ∧
    ((refAPI sampleTable).StarDashboardByUID sampleEnv unknownCtx emptyWorld).2.calls =
      [Call.GetDashboard { UID := "nope", ID := 0, OrgID := 1 }] :=
  have h := starDashboardByUID_lookup_failure (refAPI sampleTable) sampleEnv unknownCtx
    emptyWorld 7 { msg := "dashboard not found" } emptyWorld.state
    (by decide) (by decide) (by decide)
  ⟨by decide, by decide, h.1, h.2.2.2.1⟩

/-! ## Empty uid -/

/-- C5: `StarDashboardByUID` and `UnstarDashboardByUID` answer a request whose
uid path parameter is empty with 400 "Invalid dashboard UID", whatever the
caller identity and org are, and leave the world as it was: no DashboardLookup
or StarService call is issued. -/
theorem byUID_empty_uid_rejected (api : API σ) (env : Env) (c : ReqContext) (w : World σ)
    (huid : web.Params c ":uid" = "") :
    api.StarDashboardByUID env c w =
      (response.Error 400 "Invalid dashboard UID" none, w) ∧
    api.UnstarDashboardByUID env c w =
      (response.Error 400 "Invalid dashboard UID" none, w) ∧
    (response.Error 400 "Invalid dashboard UID" none).status = http.StatusBadRequest := by
  simp [API.StarDashboardByUID, API.UnstarDashboardByUID, huid, response.Error,
    http.StatusBadRequest]

theorem byUID_empty_uid_rejected_witness :
    web.Params noUidCtx ":uid" = "" ∧
    ((refAPI sampleTable).StarDashboardByUID sampleEnv noUidCtx emptyWorld).1 =
      response.Error 400 "Invalid dashboard UID" none ∧
    ((refAPI sampleTable).UnstarDashboardByUID sampleEnv noUidCtx emptyWorld).2.calls = [] :=
  have h := byUID_empty_uid_rejected (refAPI sampleTable) sampleEnv noUidCtx emptyWorld
    (by decide)
  ⟨by decide, by rw [h.1], by rw [h.2.1]; rfl⟩

/-! ## Callers that are neither users nor service accounts -/

/-- C3 (as stated) fails: `GetStars` resolves no identity.  For a caller that
is neither a user nor a service account it still queries `GetByUser` and
answers 200. -/
theorem getStars_answers_unresolvable_caller :
    sampleEnv.UserIdentifier otherCtx.GetID = Except.error { msg := "invalid identity type" } ∧
    ((refAPI sampleTable).GetStars otherCtx emptyWorld).1 = response.JSON 200 [] ∧
    ((refAPI sampleTable).GetStars otherCtx emptyWorld).1 ≠
      response.Error 400 "Only users and service accounts can star dashboards" none ∧
    ((refAPI sampleTable).GetStars otherCtx emptyWorld).2.calls =
      [Call.GetByUser { UserID := 0 }] := by
  decide

/-- C3 (amended): when the caller identity does not resolve, `StarDashboard`
(whatever the path parameters), `StarDashboardByUID` and `UnstarDashboardByUID`
(when the uid is non-empty) and `UnstarDashboard` (when the id parses as an
integer) answer 400 "Only users and service accounts can star dashboards" and
leave the world as it was, so no StarService or DashboardLookup call is issued.
`GetStars` resolves no identity: it issues `GetByUser` for the context's
`UserID`. -/
theorem unresolvable_caller_rejected (api : API σ) (env : Env) (c : ReqContext) (w : World σ)
    (e : GoError) (hcaller : env.UserIdentifier c.GetID = Except.error e) :
    api.StarDashboard env c w =
      (response.Error 400 "Only users and service accounts can star dashboards" none, w) ∧
    (web.Params c ":uid" ≠ "" → api.StarDashboardByUID env c w =
      (response.Error 400 "Only users and service accounts can star dashboards" none, w)) ∧
    (web.Params c ":uid" ≠ "" → api.UnstarDashboardByUID env c w =
      (response.Error 400 "Only users and service accounts can star dashboards" none, w)) ∧
    (∀ n, strconv.ParseInt (web.Params c ":id") = Except.ok n → api.UnstarDashboard env c w =
      (response.Error 400 "Only users and service accounts can star dashboards" none, w)) ∧
    (api.GetStars c w).2.calls = w.calls ++ [Call.GetByUser { UserID := c.UserID }] := by
  refine ⟨?_, ?_, ?_, ?_, ?_⟩
  · simp [API.StarDashboard, hcaller, http.StatusBadRequest]
  · intro huid
    simp [API.StarDashboardByUID, huid, hcaller, http.StatusBadRequest]
  · intro huid
    simp [API.UnstarDashboardByUID, huid, hcaller, http.StatusBadRequest]
  · intro n hparse
    simp [API.UnstarDashboard, hparse, hcaller, http.StatusBadRequest]
  · rw [getStars_eq]

theorem unresolvable_caller_rejected_witness :
    sampleEnv.UserIdentifier otherCtx.GetID = Except.error { msg := "invalid identity type" } ∧
    (refAPI sampleTable).StarDashboard sampleEnv otherCtx emptyWorld =
      (response.Error 400 "Only users and service accounts can star dashboards" none,
        emptyWorld) ∧
    (refAPI sampleTable).UnstarDashboard sampleEnv otherCtx emptyWorld =
      (response.Error 400 "Only users and service accounts can star dashboards" none,
        emptyWorld) :=
  have h := unresolvable_caller_rejected (refAPI sampleTable) sampleEnv otherCtx emptyWorld
    { msg := "invalid identity type" } (by decide)
  ⟨by decide, h.1, h.2.2.2.1 42 (by decide)⟩

/-! ## StarDashboard (legacy numeric id) -/

/-- C4 (as stated) fails: with id 0 and a caller that is neither a user nor a
service account, `StarDashboard` answers with the caller rejection, not with
the dashboard-id rejection. -/
theorem starDashboard_zero_id_unresolvable_caller :
    strconv.ParseInt (web.Params otherZeroCtx ":id") = Except.ok 0 ∧
    sampleEnv.UserIdentifier otherZeroCtx.GetID =
      Except.error { msg := "invalid identity type" } ∧
    ((refAPI sampleTable).StarDashboard sampleEnv otherZeroCtx emptyWorld).1 =
      response.Error 400 "Only users and service accounts can star dashboards" none ∧
    ((refAPI sampleTable).StarDashboard sampleEnv otherZeroCtx emptyWorld).1 ≠
      response.Error 400 "Missing dashboard id" none := by
  decide

/-- C4 (amended): for an id path parameter that parses to an integer `n ≤ 0`,
`StarDashboard` answers 400 "Missing dashboard id" when the caller identity
resolves to a user identifier (only the deprecation warning is logged) and 400
"Only users and service accounts can star dashboards" when it does not; in both
cases the collaborators' state is untouched and `StarService.Add` is not
called. -/
theorem starDashboard_nonpositive_id (api : API σ) (env : Env) (c : ReqContext) (w : World σ)
    (n : Int) (hparse : strconv.ParseInt (web.Params c ":id") = Except.ok n) (hn : n ≤ 0) :
    (∀ U, env.UserIdentifier c.GetID = Except.ok U →
      api.StarDashboard env c w =
        (response.Error 400 "Missing dashboard id" none,
          { state := w.state, calls := w.calls ++ [Call.Warn starDeprecated] })) ∧
    (∀ e, env.UserIdentifier c.GetID = Except.error e →
      api.StarDashboard env c w =
        (response.Error 400 "Only users and service accounts can star dashboards" none, w)) ∧
    (api.StarDashboard env c w).1.status = http.StatusBadRequest ∧
    (api.StarDashboard env c w).2.state = w.state ∧
    (api.StarDashboard env c w).2.calls.filter Call.isAdd = w.calls.filter Call.isAdd := by
  cases hcaller : env.UserIdentifier c.GetID with
  | error e =>
    simp [API.StarDashboard, hcaller, http.StatusBadRequest, response.Error]
  | ok U =>
    simp [API.StarDashboard, hcaller, hparse, hn, API.Warn, http.StatusBadRequest,
      response.Error, Call.isAdd]

theorem starDashboard_nonpositive_id_witness :
    strconv.ParseInt (web.Params negativeIdCtx ":id") = Except.ok (-3) ∧
    (refAPI sampleTable).StarDashboard sampleEnv negativeIdCtx emptyWorld =
      (response.Error 400 "Missing dashboard id" none,
        { state := emptyWorld.state, calls := [Call.Warn starDeprecated] }) :=
  have h := starDashboard_nonpositive_id (refAPI sampleTable) sampleEnv negativeIdCtx
    emptyWorld (-3) (by decide) (by decide)
  ⟨by decide, h.1 7 (by decide)⟩

/-- C9: for a caller that resolves to user `U` and an id path parameter that
parses to `n > 0`, `StarDashboard` issues the deprecation warning and exactly
one `Add`, with `UserID = U`, `DashboardID = n`, empty `DashboardUID` and
`OrgID = 0`, and no dashboard lookup; it answers 200 "Dashboard starred!" when
`Add` succeeds and 500 "Failed to star dashboard" when `Add` fails. -/
theorem starDashboard_delegates_raw_id (api : API σ) (env : Env) (c : ReqContext)
    (w : World σ) (U n : Int)
    (hcaller : env.UserIdentifier c.GetID = Except.ok U)
    (hparse : strconv.ParseInt (web.Params c ":id") = Except.ok n) (hn : 0 < n) :
    (api.StarDashboard env c w).2.calls = w.calls ++
      [Call.Warn starDeprecated,
       Call.Add { UserID := U, DashboardID := n, DashboardUID := "", OrgID := 0,
                  Updated := env.Now }] ∧
    (api.StarDashboard env c w).2.calls.filter Call.isDashboardLookup =
      w.calls.filter Call.isDashboardLookup ∧
    (∀ s1, api.starService.Add
        { UserID := U, DashboardID := n, DashboardUID := "", OrgID := 0, Updated := env.Now }
        w.state = (none, s1) →
      api.StarDashboard env c w =
        (response.Success "Dashboard starred!",
          { state := s1, calls := w.calls ++
            [Call.Warn starDeprecated,
             Call.Add { UserID := U, DashboardID := n, DashboardUID := "", OrgID := 0,
                        Updated := env.Now }] }) ∧
      (api.StarDashboard env c w).1.status = 200) ∧
    (∀ err s1, api.starService.Add
        { UserID := U, DashboardID := n, DashboardUID := "", OrgID := 0, Updated := env.Now }
        w.state = (some err, s1) →
      (api.StarDashboard env c w).1 =
        response.Error 500 "Failed to star dashboard" (some err) ∧
      (api.StarDashboard env c w).1.status = 500) := by
  have hn' : ¬ n ≤ 0 := not_le.mpr hn
  rcases hadd : api.starService.Add
    { UserID := U, DashboardID := n, DashboardUID := "", OrgID := 0, Updated := env.Now }
    w.state with ⟨_ | err, s1⟩ <;>
  simp [API.StarDashboard, hcaller, hparse, hn', API.Warn, API.Add, hadd, Call.isDashboardLookup,
    response.Success, response.Error, http.StatusOK, http.StatusInternalServerError]

theorem starDashboard_delegates_raw_id_witness :
    sampleEnv.UserIdentifier legacyCtx.GetID = Except.ok 7 ∧
    strconv.ParseInt (web.Params legacyCtx ":id") = Except.ok 42 ∧
    ((refAPI sampleTable).StarDashboard sampleEnv legacyCtx emptyWorld).2.calls =
      [Call.Warn starDeprecated,
       Call.Add { UserID := 7, DashboardID := 42, DashboardUID := "", OrgID := 0,
                  Updated := 1700000000 }] ∧
    ((brokenAPI { msg := "db down" } sampleTable).StarDashboard sampleEnv legacyCtx
      emptyWorld).1 = response.Error 500 "Failed to star dashboard" (some { msg := "db down" }) :=
  have h := starDashboard_delegates_raw_id (refAPI sampleTable) sampleEnv legacyCtx emptyWorld
    7 42 (by decide) (by decide) (by decide)
  have hb := starDashboard_delegates_raw_id (brokenAPI { msg := "db down" } sampleTable)
    sampleEnv legacyCtx emptyWorld 7 42 (by decide) (by decide) (by decide)
  ⟨by decide, by decide, h.1, (hb.2.2.2 { msg := "db down" } emptyWorld.state (by decide)).1⟩

/-! ## GetStars -/

/-- C6: when `GetByUser` succeeds with the map `res.UserStars`, `GetStars`
answers 200 with an array that holds each key of the map exactly once and
nothing else; its length is the size of the map, so it is the empty array for
the empty map.  When `GetByUser` fails, `GetStars` answers 500 "Failed to get
user stars" and the body carries no uid array. -/
theorem getStars_lists_each_uid_once (api : API σ) (c : ReqContext) (w : World σ) :
    (∀ (res : GetUserStarsResult) (s1 : σ),
      api.starService.GetByUser { UserID := c.UserID } w.state = (Except.ok res, s1) →
      ∃ uids : List String,
        (api.GetStars c w).1 = response.JSON 200 uids ∧
        (api.GetStars c w).1.status = 200 ∧
        (∀ uid, uids.count uid = if uid ∈ res.UserStars.range then 1 else 0) ∧
        uids.length = res.UserStars.len ∧
        (res.UserStars.len = 0 → uids = [])) ∧
    (∀ (e : GoError) (s1 : σ),
      api.starService.GetByUser { UserID := c.UserID } w.state = (Except.error e, s1) →
      (api.GetStars c w).1 = response.Error 500 "Failed to get user stars" (some e) ∧
      (api.GetStars c w).1.status = 500 ∧
      ∀ l, (api.GetStars c w).1.body ≠ Body.uids l) := by
  constructor
  · intro res s1 h
    refine ⟨res.UserStars.range, ?_, ?_, ?_, ?_, ?_⟩
    · rw [getStars_eq, h]
    · rw [getStars_eq, h]
      rfl
    · intro uid
      exact List.count_eq_of_nodup res.UserStars.nodupKeys
    · simp [StarMap.range, StarMap.len]
    · intro h0
      simpa [StarMap.range, StarMap.len] using h0
  · intro e s1 h
    rw [getStars_eq, h]
    simp [response.Error]

theorem getStars_lists_each_uid_once_witness :
    ((refAPI sampleTable).GetStars sampleCtx starredWorld).1 =
      response.JSON 200 ["abc123", "xyz"] ∧
    ((refAPI sampleTable).GetStars sampleCtx emptyWorld).1 = response.JSON 200 [] ∧
    ((brokenAPI { msg := "db down" } sampleTable).GetStars sampleCtx emptyWorld).1 =
      response.Error 500 "Failed to get user stars" (some { msg := "db down" }) :=
  have h := (getStars_lists_each_uid_once (brokenAPI { msg := "db down" } sampleTable)
    sampleCtx emptyWorld).2 { msg := "db down" } emptyWorld.state rfl
  ⟨by decide, by decide, h.1⟩

/-! ## Round trips over the reference star service -/

theorem mem_uidsOf (s : StarStore) (userID : Int) (uid : String) :
    uid ∈ s.uidsOf userID ↔ (userID, uid) ∈ s.records := by
  simp only [StarStore.uidsOf, List.mem_map, List.mem_filter, decide_eq_true_eq]
  constructor
  · rintro ⟨⟨u, x⟩, ⟨hmem, hu⟩, hx⟩
    simp only at hu hx
    subst hu hx
    exact hmem
  · intro h
    exact ⟨(userID, uid), ⟨h, rfl⟩, rfl⟩

/-- Over the reference service `GetStars` lists the stored uids of the
context's `UserID`, in the order the map handed out is visited. -/
theorem refAPIIn_getStars (order : MapOrder)
    (table : GetDashboardQuery → Except GoError Dashboard)
    (c : ReqContext) (w : World StarStore) :
    (refAPIIn order table).GetStars c w =
      (response.JSON 200 (order.visit w.state.handedOut (w.state.uidsOf c.UserID).dedup),
       { state := { w.state with handedOut := w.state.handedOut + 1 },
         calls := w.calls ++ [Call.GetByUser { UserID := c.UserID }] }) := by
  rw [getStars_eq]
  simp [refAPIIn, refStarServiceIn, StarMap.ofKeys, StarMap.range, List.map_map,
    Function.comp_def]

/-- Over the reference service a resolvable `StarDashboardByUID` request
records the star under the resolved user identifier. -/
theorem refAPIIn_starDashboardByUID (order : MapOrder)
    (table : GetDashboardQuery → Except GoError Dashboard)
    (env : Env) (c : ReqContext) (w : World StarStore) (U : Int) (dash : Dashboard)
    (huid : web.Params c ":uid" ≠ "")
    (hcaller : env.UserIdentifier c.GetID = Except.ok U)
    (hlookup : table { UID := web.Params c ":uid", ID := 0, OrgID := c.GetOrgID } =
      Except.ok dash) :
    (refAPIIn order table).StarDashboardByUID env c w =
      (response.Success "Dashboard starred!",
       { state :=
           { w.state with records :=
              if (U, web.Params c ":uid") ∈ w.state.records then w.state.records
              else w.state.records ++ [(U, web.Params c ":uid")] },
         calls := w.calls ++
           [Call.GetDashboard { UID := web.Params c ":uid", ID := 0, OrgID := c.GetOrgID },
            Call.Add { UserID := U, DashboardID := dash.ID, DashboardUID := web.Params c ":uid",
                       OrgID := c.GetOrgID, Updated := env.Now }] }) := by
  simp [API.StarDashboardByUID, API.getDashboardHelper, getDashboardHelper_query,
    API.GetDashboard, API.Add, huid, hcaller, hlookup, refAPIIn, refStarServiceIn,
    tableDashboards]

/-- Over the reference service a resolvable `UnstarDashboardByUID` request
removes the star of the resolved user identifier. -/
theorem refAPIIn_unstarDashboardByUID (order : MapOrder)
    (table : GetDashboardQuery → Except GoError Dashboard)
    (env : Env) (c : ReqContext) (w : World StarStore) (U : Int)
    (huid : web.Params c ":uid" ≠ "")
    (hcaller : env.UserIdentifier c.GetID = Except.ok U) :
    (refAPIIn order table).UnstarDashboardByUID env c w =
      (response.Success "Dashboard unstarred",
       { state :=
           { w.state with records :=
              w.state.records.filter (fun r => decide (r ≠ (U, web.Params c ":uid"))) },
         calls := w.calls ++
           [Call.Delete { UserID := U, DashboardID := 0, DashboardUID := web.Params c ":uid",
                          OrgID := c.GetOrgID }] }) := by
  simp [API.UnstarDashboardByUID, API.Delete, huid, hcaller, refAPIIn, refStarServiceIn]

/-- C7: over the reference star service, whatever the order in which its maps
are visited, for a request context with a non-empty uid that the dashboard
lookup resolves and a caller identity that resolves to the user identifier of
the signed-in user (`c.UserID`, the user `GetStars` lists), `StarDashboardByUID`
answers 200 and `GetStars` on the same context then answers 200 with an array
that includes that uid. -/
theorem star_then_list_includes_uid (order : MapOrder)
    (table : GetDashboardQuery → Except GoError Dashboard)
    (env : Env) (c : ReqContext) (w : World StarStore) (dash : Dashboard)
    (huid : web.Params c ":uid" ≠ "")
    (hcaller : env.UserIdentifier c.GetID = Except.ok c.UserID)
    (hlookup : table { UID := web.Params c ":uid", ID := 0, OrgID := c.GetOrgID } =
      Except.ok dash) :
    ((refAPIIn order table).StarDashboardByUID env c w).1 =
      response.Success "Dashboard starred!" ∧
    ((refAPIIn order table).StarDashboardByUID env c w).1.status = 200 ∧
    ∃ uids : List String,
      ((refAPIIn order table).GetStars c
        ((refAPIIn order table).StarDashboardByUID env c w).2).1 = response.JSON 200 uids ∧
      web.Params c ":uid" ∈ uids := by
  rw [refAPIIn_starDashboardByUID order table env c w c.UserID dash huid hcaller hlookup]
  refine ⟨rfl, rfl, _, by rw [refAPIIn_getStars], ?_⟩
  rw [(order.perm _ _).mem_iff, List.mem_dedup, mem_uidsOf]
  by_cases h : (c.UserID, web.Params c ":uid") ∈ w.state.records <;> simp [h]

theorem star_then_list_includes_uid_witness :
    web.Params sampleCtx ":uid" = "abc123" ∧
    sampleEnv.UserIdentifier sampleCtx.GetID = Except.ok sampleCtx.UserID ∧
    ((refAPIIn alternatingOrder sampleTable).StarDashboardByUID sampleEnv sampleCtx
      emptyWorld).1.status = 200 ∧
    ((refAPIIn alternatingOrder sampleTable).GetStars sampleCtx
      ((refAPIIn alternatingOrder sampleTable).StarDashboardByUID sampleEnv sampleCtx
        emptyWorld).2).1 = response.JSON 200 ["abc123"] :=
  have h := star_then_list_includes_uid alternatingOrder sampleTable sampleEnv sampleCtx
    emptyWorld { ID := 42 } (by decide) (by decide) (by decide)
  ⟨by decide, by decide, h.2.1, by decide⟩

/-- C8: over the reference star service, whatever the order in which its maps
are visited, for a request context with a non-empty uid that the dashboard
lookup resolves and a caller identity that resolves to the user identifier of
the signed-in user (`c.UserID`, the user `GetStars` lists):
`StarDashboardByUID` and then `UnstarDashboardByUID` both answer 200 and
`GetStars` then answers 200 with an array that does not contain that uid.  A
second `UnstarDashboardByUID`, issued after that listing or in its place,
answers 200 and leaves the stored records as they were, and the listing that
follows it holds the same uids as the first listing, each as often: the two
arrays are permutations of one another, their order being the order in which
each map is visited. -/
theorem star_unstar_then_list_excludes_uid (order : MapOrder)
    (table : GetDashboardQuery → Except GoError Dashboard)
    (env : Env) (c : ReqContext) (w : World StarStore) (dash : Dashboard)
    (huid : web.Params c ":uid" ≠ "")
    (hcaller : env.UserIdentifier c.GetID = Except.ok c.UserID)
    (hlookup : table { UID := web.Params c ":uid", ID := 0, OrgID := c.GetOrgID } =
      Except.ok dash) :
    ((refAPIIn order table).StarDashboardByUID env c w).1.status = 200 ∧
    ((refAPIIn order table).UnstarDashboardByUID env c
      ((refAPIIn order table).StarDashboardByUID env c w).2).1.status = 200 ∧
    ∃ uids : List String,
      ((refAPIIn order table).GetStars c ((refAPIIn order table).starUnstar env c w)).1 =
        response.JSON 200 uids ∧
      web.Params c ":uid" ∉ uids ∧
      ((refAPIIn order table).UnstarDashboardByUID env c
        ((refAPIIn order table).GetStars c
          ((refAPIIn order table).starUnstar env c w)).2).1.status = 200 ∧
      ((refAPIIn order table).UnstarDashboardByUID env c
        ((refAPIIn order table).GetStars c
          ((refAPIIn order table).starUnstar env c w)).2).2.state.records =
        ((refAPIIn order table).starUnstar env c w).state.records ∧
      (∃ again : List String,
        ((refAPIIn order table).GetStars c
          ((refAPIIn order table).UnstarDashboardByUID env c
            ((refAPIIn order table).GetStars c
              ((refAPIIn order table).starUnstar env c w)).2).2).1 =
          response.JSON 200 again ∧
        again.Perm uids) ∧
      ((refAPIIn order table).UnstarDashboardByUID env c
        ((refAPIIn order table).starUnstar env c w)).1.status = 200 ∧
      ((refAPIIn order table).UnstarDashboardByUID env c
        ((refAPIIn order table).starUnstar env c w)).2.state.records =
        ((refAPIIn order table).starUnstar env c w).state.records ∧
      ∃ instead : List String,
        ((refAPIIn order table).GetStars c
          ((refAPIIn order table).UnstarDashboardByUID env c
            ((refAPIIn order table).starUnstar env c w)).2).1 =
          response.JSON 200 instead ∧
        instead.Perm uids := by
  unfold API.starUnstar
  rw [refAPIIn_starDashboardByUID order table env c w c.UserID dash huid hcaller hlookup]
  simp only [refAPIIn_unstarDashboardByUID order table env c _ c.UserID huid hcaller,
    refAPIIn_getStars, List.filter_filter, Bool.and_self, StarStore.uidsOf]
  refine ⟨rfl, rfl, _, rfl, ?_, rfl, trivial, ⟨_, rfl, ?_⟩, rfl, trivial, ⟨_, rfl, ?_⟩⟩
  · rw [(order.perm _ _).mem_iff, List.mem_dedup]
    simp [List.mem_filter]
  · exact (order.perm _ _).trans (order.perm _ _).symm
  · exact (order.perm _ _).trans (order.perm _ _).symm

theorem star_unstar_then_list_excludes_uid_witness :
    web.Params sampleCtx ":uid" = "abc123" ∧
    sampleEnv.UserIdentifier sampleCtx.GetID = Except.ok sampleCtx.UserID ∧
    ((refAPIIn alternatingOrder sampleTable).UnstarDashboardByUID sampleEnv sampleCtx
      ((refAPIIn alternatingOrder sampleTable).StarDashboardByUID sampleEnv sampleCtx
        busyWorld).2).1.status = 200 ∧
    ((refAPIIn alternatingOrder sampleTable).GetStars sampleCtx
      ((refAPIIn alternatingOrder sampleTable).UnstarDashboardByUID sampleEnv sampleCtx
        ((refAPIIn alternatingOrder sampleTable).StarDashboardByUID sampleEnv sampleCtx
          busyWorld).2).2).1 = response.JSON 200 ["xyz", "pqr"] ∧
    ((refAPIIn alternatingOrder sampleTable).GetStars sampleCtx
      ((refAPIIn alternatingOrder sampleTable).UnstarDashboardByUID sampleEnv sampleCtx
        ((refAPIIn alternatingOrder sampleTable).GetStars sampleCtx
          ((refAPIIn alternatingOrder sampleTable).UnstarDashboardByUID sampleEnv sampleCtx
            ((refAPIIn alternatingOrder sampleTable).StarDashboardByUID sampleEnv sampleCtx
              busyWorld).2).2).2).2).1 = response.JSON 200 ["pqr", "xyz"] :=
  have h := star_unstar_then_list_excludes_uid alternatingOrder sampleTable sampleEnv
    sampleCtx busyWorld { ID := 42 } (by decide) (by decide) (by decide)
  ⟨by decide, by decide, h.2.1, by decide, by decide⟩

/-! ## UnstarDashboard against StarDashboard -/

/-- C10 (as stated) fails: with a non-integer id and a caller that is neither
a user nor a service account both handlers reject, but `StarDashboard` answers
with the caller rejection and `UnstarDashboard` with the dashboard-id
rejection. -/
theorem unstarDashboard_rejects_with_other_message :
    strconv.ParseInt (web.Params otherBadIdCtx ":id") =
      Except.error strconv.NumError.ErrSyntax ∧
    sampleEnv.UserIdentifier otherBadIdCtx.GetID =
      Except.error { msg := "invalid identity type" } ∧
    ((refAPI sampleTable).StarDashboard sampleEnv otherBadIdCtx emptyWorld).1 =
      response.Error 400 "Only users and service accounts can star dashboards" none ∧
    ((refAPI sampleTable).UnstarDashboard sampleEnv otherBadIdCtx emptyWorld).1 =
      response.Error 400 "Invalid dashboard ID" none ∧
    ((refAPI sampleTable).UnstarDashboard sampleEnv otherBadIdCtx emptyWorld).1 ≠
      ((refAPI sampleTable).StarDashboard sampleEnv otherBadIdCtx emptyWorld).1 := by
  decide

/-- C10 (amended): `UnstarDashboard` rejects a request (answers 400) if and
only if `StarDashboard` rejects it, and the two rejections are the same
response whenever the identity resolves or the id parses as an integer: "Only
users and service accounts can star dashboards" when the identity does not
resolve, "Invalid dashboard ID" when the id is no integer and "Missing
dashboard id" when it is an integer `n ≤ 0`.  When neither resolves nor
parses, `StarDashboard` answers "Only users and service accounts can star
dashboards" and `UnstarDashboard` answers "Invalid dashboard ID".  When
the identity resolves to `U` and the id parses to `n > 0`, both log their
deprecation warning and issue their single StarService call, `Add` and
`Delete`, with `UserID = U` and `DashboardID = n`. -/
theorem unstarDashboard_validates_like_starDashboard (api : API σ) (env : Env)
    (c : ReqContext) (w : World σ) :
    ((api.UnstarDashboard env c w).1.status = 400 ↔
      (api.StarDashboard env c w).1.status = 400) ∧
    ((api.StarDashboard env c w).1.status = 400 →
      ((∃ U, env.UserIdentifier c.GetID = Except.ok U) ∨
        (∃ n, strconv.ParseInt (web.Params c ":id") = Except.ok n)) →
      (api.UnstarDashboard env c w).1 = (api.StarDashboard env c w).1) ∧
    (∀ e n, env.UserIdentifier c.GetID = Except.error e →
      strconv.ParseInt (web.Params c ":id") = Except.ok n →
      (api.StarDashboard env c w).1 =
        response.Error 400 "Only users and service accounts can star dashboards" none ∧
      (api.UnstarDashboard env c w).1 =
        response.Error 400 "Only users and service accounts can star dashboards" none) ∧
    (∀ U e, env.UserIdentifier c.GetID = Except.ok U →
      strconv.ParseInt (web.Params c ":id") = Except.error e →
      (api.StarDashboard env c w).1 = response.Error 400 "Invalid dashboard ID" none ∧
      (api.UnstarDashboard env c w).1 = response.Error 400 "Invalid dashboard ID" none) ∧
    (∀ U n, env.UserIdentifier c.GetID = Except.ok U →
      strconv.ParseInt (web.Params c ":id") = Except.ok n → n ≤ 0 →
      (api.StarDashboard env c w).1 = response.Error 400 "Missing dashboard id" none ∧
      (api.UnstarDashboard env c w).1 = response.Error 400 "Missing dashboard id" none) ∧
    (∀ e1 e2, env.UserIdentifier c.GetID = Except.error e1 →
      strconv.ParseInt (web.Params c ":id") = Except.error e2 →
      api.StarDashboard env c w =
        (response.Error 400 "Only users and service accounts can star dashboards" none, w) ∧
      api.UnstarDashboard env c w = (response.Error 400 "Invalid dashboard ID" none, w)) ∧
    (∀ U n, env.UserIdentifier c.GetID = Except.ok U →
      strconv.ParseInt (web.Params c ":id") = Except.ok n → 0 < n →
      (api.StarDashboard env c w).2.calls = w.calls ++
        [Call.Warn starDeprecated,
         Call.Add { UserID := U, DashboardID := n, DashboardUID := "", OrgID := 0,
                    Updated := env.Now }] ∧
      (api.UnstarDashboard env c w).2.calls = w.calls ++
        [Call.Warn unstarDeprecated,
         Call.Delete { UserID := U, DashboardID := n, DashboardUID := "", OrgID := 0 }]) := by
  cases hcaller : env.UserIdentifier c.GetID with
  | error e =>
    cases hparse : strconv.ParseInt (web.Params c ":id") <;>
    simp [API.StarDashboard, API.UnstarDashboard, hcaller, hparse, http.StatusBadRequest,
      response.Error]
  | ok U =>
    cases hparse : strconv.ParseInt (web.Params c ":id") with
    | error e =>
      simp [API.StarDashboard, API.UnstarDashboard, hcaller, hparse, http.StatusBadRequest,
        response.Error]
    | ok n =>
      by_cases hn : n ≤ 0
      · simp [API.StarDashboard, API.UnstarDashboard, hcaller, hparse, hn,
          http.StatusBadRequest, response.Error, API.Warn, not_lt.mpr hn]
      · rcases hadd : api.starService.Add
          { UserID := U, DashboardID := n, DashboardUID := "", OrgID := 0, Updated := env.Now }
          (api.Warn starDeprecated w).state with ⟨_ | err, s1⟩ <;>
        rcases hdel : api.starService.Delete
          { UserID := U, DashboardID := n, DashboardUID := "", OrgID := 0 }
          (api.Warn unstarDeprecated w).state with ⟨_ | err2, s2⟩ <;>
        simp [API.StarDashboard, API.UnstarDashboard, hcaller, hparse, hn, not_le.mp hn,
          http.StatusBadRequest, http.StatusOK, http.StatusInternalServerError, response.Error,
          response.Success, API.Add, API.Delete, hadd, hdel] <;>
        simp [API.Warn]

theorem unstarDashboard_validates_like_starDashboard_witness :
    sampleEnv.UserIdentifier legacyCtx.GetID = Except.ok 7 ∧
    strconv.ParseInt (web.Params legacyCtx ":id") = Except.ok 42 ∧
    ((refAPI sampleTable).UnstarDashboard sampleEnv legacyCtx emptyWorld).2.calls =
      [Call.Warn unstarDeprecated,
       Call.Delete { UserID := 7, DashboardID := 42, DashboardUID := "", OrgID := 0 }] ∧
    (refAPI sampleTable).UnstarDashboard sampleEnv otherBadIdCtx emptyWorld =
      (response.Error 400 "Invalid dashboard ID" none, emptyWorld) :=
  have h := unstarDashboard_validates_like_starDashboard (refAPI sampleTable) sampleEnv
    legacyCtx emptyWorld
  have h2 := unstarDashboard_validates_like_starDashboard (refAPI sampleTable) sampleEnv
    otherBadIdCtx emptyWorld
  ⟨by decide, by decide, (h.2.2.2.2.2.2 7 42 (by decide) (by decide) (by decide)).2,
    (h2.2.2.2.2.2.1 { msg := "invalid identity type" } strconv.NumError.ErrSyntax (by decide)
      (by decide)).2⟩

end StarApi
